import Mathlib

/-!
Verification development for the `intedact` univariate EDA module
(`src/intedact/univariate_summaries.py`).

A dataframe column is modelled as a list of optional cells: `none` is a
missing entry (pandas `NaN`/`NaT`), `some v` an observed value.  Numeric,
datetime and discrete cell values are modelled as rationals (any linearly
ordered value domain with subtraction; pandas treats them uniformly for the
statistics computed here).  Text columns are lists of optional strings.

External collaborators (matplotlib, seaborn, the chart producers of
`univariate_plots` / `plot_utils`, the nltk tokenizer and stop-word list)
are consumed as black boxes, exactly as the spec describes them: figures
are modelled by their dimensions, tokenizers and stop-word lists are
universally quantified parameters.
-/

/-- One dataframe column: `none` marks a missing entry. -/
abbrev Col := List (Option ℚ)

/-- The observed (non-missing) values of a column, in order. -/
def observed {α : Type} (col : List (Option α)) : List α :=
  col.filterMap id

/-- Number of missing entries: `data[column].isnull().sum()`. -/
def countMissing {α : Type} (col : List (Option α)) : ℕ :=
  (col.filter (fun c => c.isNone)).length

/-- Number of distinct observed values: `data[column].nunique()`
(pandas excludes missing entries). -/
def nunique {α : Type} [DecidableEq α] (col : List (Option α)) : ℕ :=
  (observed col).dedup.length

/-- Modelled from the spec: `trim_values` lives in `intedact/data_utils.py`,
which is not under `src/`.  Per the spec (sections 3 and 4.1 and the
glossary), it drops the `lower_trim` smallest and `upper_trim` largest
values of the column before statistics are computed, and the module never
mutates the callers frame, so it returns a fresh frame.  Missing entries
carry no value and are kept. -/
def trim_values {α : Type} [LinearOrder α] (col : List (Option α))
    (lower_trim upper_trim : ℕ) : List (Option α) :=
  let obs := List.insertionSort (· ≤ ·) (observed col)
  let kept := (obs.drop lower_trim).take (obs.length - lower_trim - upper_trim)
  kept.map some ++ List.replicate (countMissing col) none

/-- Linear-interpolation quantile of an ascending-sorted list, as computed by
pandas `Series.quantile` (numpy linear interpolation): the rank position is
`p * (n - 1)`; the result interpolates between the values at the floor and
the ceiling of that position.  On an empty list the defaults give the junk
value `0` (pandas would give `NaN`). -/
def quantile (s : List ℚ) (p : ℚ) : ℚ :=
  let h := p * ((s.length : ℚ) - 1)
  let i := (Int.floor h).toNat
  let lo := s.getD i 0
  let hi := s.getD (i + 1) lo
  lo + (h - (Int.floor h : ℚ)) * (hi - lo)

/-- Mean of the observed values, as in pandas `describe()` (junk `0` when
empty, where pandas gives `NaN`). -/
def listMean (s : List ℚ) : ℚ :=
  s.sum / (s.length : ℚ)

/-- Square of the sample standard deviation of pandas `describe()`
(`ddof = 1`).  The source stores its square root in the `std` column; the
square root of a rational is not rational, so the embedding records the
square, whose value no claim refers to. -/
def sampleVarSq (s : List ℚ) : ℚ :=
  (s.map (fun x => (x - listMean s) ^ 2)).sum / ((s.length : ℚ) - 1)

/-- The one-row summary table built by `compute_univariate_summary_table`.
`columns` records the table column names in creation order; statistic
fields that a branch does not create stay `none`. -/
structure SummaryTable where
  columns : List String
  count_observed : ℤ
  count_unique : ℕ
  count_missing : ℕ
  percent_missing : ℚ
  min? : Option ℚ := none
  q25? : Option ℚ := none
  median? : Option ℚ := none
  mean? : Option ℚ := none
  q75? : Option ℚ := none
  max? : Option ℚ := none
  stdSq? : Option ℚ := none
  iqr? : Option ℚ := none
  vocabSize? : Option ℕ := none
deriving DecidableEq

/-- The counts block of `compute_univariate_summary_table` (lines 55-67 of
the source).  In pandas this block is dtype-generic, which is how the text
orchestrator can call the builder on a string column; it is therefore
factored over the cell type. -/
def computeCounts {α : Type} [DecidableEq α] (data : List (Option α)) : SummaryTable :=
  let count_missing := countMissing data
  let perc_missing : ℚ := 100 * (count_missing : ℚ) / (data.length : ℚ)
  let count_obs : ℤ := (data.length : ℤ) - (count_missing : ℤ)
  let count_levels := nunique data
  { columns := ["count_observed", "count_unique", "count_missing", "percent_missing"],
    count_observed := count_obs,
    count_unique := count_levels,
    count_missing := count_missing,
    percent_missing := perc_missing }

/-- `compute_univariate_summary_table(data, column, data_type, lower_trim,
upper_trim)`.  The function first replaces the data by its trimmed version,
then builds the counts table, and appends quantile statistics for the
`datetime` and `continuous` data types (the second `or data_type ==
"datetime"` disjunct of the source `elif` is kept even though the first
branch already caught it).  The source body contains no raise statement and
no guard, so every branch returns `Except.ok`. -/
def compute_univariate_summary_table (col : Col) (data_type : String)
    (lower_trim upper_trim : ℕ) : Except String SummaryTable :=
  let data := trim_values col lower_trim upper_trim
  let counts_table := computeCounts data
  let s := List.insertionSort (· ≤ ·) (observed data)
  if data_type = "datetime" then
    Except.ok { counts_table with
      columns := counts_table.columns ++ ["min", "25%", "median", "75%", "max", "iqr"],
      min? := some (s.getD 0 0),
      q25? := some (quantile s (1/4)),
      median? := some (quantile s (1/2)),
      q75? := some (quantile s (3/4)),
      max? := some (s.getD (s.length - 1) 0),
      iqr? := some (quantile s (3/4) - quantile s (1/4)) }
  else if data_type = "continuous" ∨ data_type = "datetime" then
    Except.ok { counts_table with
      columns := counts_table.columns ++
        ["min", "25%", "median", "mean", "75%", "max", "std", "iqr"],
      min? := some (s.getD 0 0),
      q25? := some (quantile s (1/4)),
      median? := some (quantile s (1/2)),
      mean? := some (listMean s),
      q75? := some (quantile s (3/4)),
      max? := some (s.getD (s.length - 1) 0),
      stdSq? := some (sampleVarSq s),
      iqr? := some (quantile s (3/4) - quantile s (1/4)) }
  else
    Except.ok counts_table

/-- A matplotlib figure handle, modelled by its dimensions in inches
(`figsize=(width, height)`); everything drawn onto it goes through the
black-box chart producers. -/
structure Figure where
  width : ℚ
  height : ℚ
deriving DecidableEq

/-- The Python values the orchestrators can return: `None` (no return
statement), a table, a figure handle, or a tuple. -/
inductive PyObject where
  | none : PyObject
  | table : List SummaryTable → PyObject
  | fig : Figure → PyObject
  | pair : PyObject → PyObject → PyObject
deriving DecidableEq

/-- Is this value a `(statistics table, figure handle)` pair? -/
def isTableFigPair : PyObject → Bool
  | PyObject.pair (PyObject.table _) (PyObject.fig _) => true
  | _ => false

/-- Is this value a bare figure handle? -/
def isFigOnly : PyObject → Bool
  | PyObject.fig _ => true
  | _ => false

/-- The argument each orchestrator passes to `sns.set_palette`:
`if color_palette != "": sns.set_palette(color_palette) else:
sns.set_palette("tab10")`.  `none` models the Python default `None`. -/
def sns_set_palette_arg (color_palette : Option String) : Option String :=
  if color_palette ≠ some "" then color_palette else some "tab10"

/-- What an orchestrator call produced: the argument of its
`sns.set_palette` call (`none` if the orchestrator never sets a palette)
and its Python return value. -/
structure OrchResult where
  paletteSet : Option (Option String)
  ret : PyObject
deriving DecidableEq

/-- `discrete_univariate_summary`.  The defensive `data.copy()` and the
countplot styling (ordering, axis flipping, labels) feed only the external
`countplot` call and the mutation model below; the data contract is the
summary table plus the figure created by
`plt.subplots(figsize=(fig_width, fig_height))`, returned as a pair. -/
def discrete_univariate_summary (data : Col) (fig_height fig_width : ℚ)
    (color_palette : Option String) : Except String OrchResult := do
  let pal := sns_set_palette_arg color_palette
  let summary_table ← compute_univariate_summary_table data "discrete" 0 0
  let fig : Figure := ⟨fig_width, fig_height⟩
  pure { paletteSet := some pal,
         ret := PyObject.pair (PyObject.table [summary_table]) (PyObject.fig fig) }

/-- `continuous_univariate_summary`: summary table with trims, histogram
and boxplot drawn by external chart producers onto
`plt.subplots(2, 1, figsize=(fig_width, fig_height * 2))`, returned as a
pair. -/
def continuous_univariate_summary (data : Col) (fig_height fig_width : ℚ)
    (color_palette : Option String) (lower_trim upper_trim : ℕ) :
    Except String OrchResult := do
  let pal := sns_set_palette_arg color_palette
  let table ← compute_univariate_summary_table data "continuous" lower_trim upper_trim
  let f : Figure := ⟨fig_width, fig_height * 2⟩
  pure { paletteSet := some pal,
         ret := PyObject.pair (PyObject.table [table]) (PyObject.fig f) }

/-- Modelled from the spec: `compute_time_deltas` lives in
`intedact/data_utils.py`, which is not under `src/`.  Per the spec
(section 4.4) it computes successive-observation time deltas in an
automatically or explicitly chosen unit and returns the delta column with
the resolved unit.  The unit-scaling heuristic is abstracted (scale 1, the
unit string is passed through); the first observation has no predecessor. -/
def compute_time_deltas (col : Col) (delta_units : String) : Col × String :=
  let deltas := Option.none :: List.zipWith
    (fun a b => match a, b with
      | some x, some y => some (y - x)
      | _, _ => Option.none)
    col (col.drop 1)
  (deltas, delta_units)

/-- `datetime_univariate_summary`: trims, computes time deltas, stacks the
datetime summary table on the delta summary table (built on
`data.iloc[1:, :]`), and returns that table with the figure
`plt.figure(figsize=(fig_width, fig_height * 4))` as a pair.  The derived
calendar columns feed only the external countplots and the mutation model
below. -/
def datetime_univariate_summary (data : Col) (fig_height fig_width : ℚ)
    (color_palette : Option String) (delta_units : String)
    (lower_trim upper_trim : ℕ) : Except String OrchResult := do
  let data := trim_values data lower_trim upper_trim
  let pal := sns_set_palette_arg color_palette
  let (deltas, _units) := compute_time_deltas data delta_units
  let table ← compute_univariate_summary_table data "datetime" 0 0
  let delta_table ← compute_univariate_summary_table (deltas.drop 1) "continuous" 0 0
  let fig : Figure := ⟨fig_width, fig_height * 4⟩
  pure { paletteSet := some pal,
         ret := PyObject.pair (PyObject.table [table, delta_table]) (PyObject.fig fig) }

/-- What a `text_univariate_summary` call produced: the palette argument,
the fully processed token column, the stacked summary table (displayed when
interactive but never returned), and the Python return value, which is the
bare figure (`figsize=(fig_width, fig_height * 3)` when ngrams are
computed, `(fig_width, fig_height)` otherwise). -/
structure TextResult where
  paletteSet : Option (Option String)
  tokens : List (List String)
  table : List SummaryTable
  ret : PyObject

/-- `text_univariate_summary`.  The nltk tokenizer, the stop-word list and
the Python `str.isalnum` predicate are black-box parameters.  Processing
follows the source order: tokenize, optionally lower-case, optionally drop
tokens whose lower-cased form is a stop word, optionally drop
non-alphanumeric tokens.  The summary table stacks the dtype-generic counts
of the document column (with the vocabulary size added), the token-count
table and the character-count table. -/
def text_univariate_summary (data : List (Option String))
    (fig_height fig_width : ℚ) (color_palette : Option String)
    (compute_ngrams remove_punct remove_stop lower_case : Bool)
    (word_tokenize : String → List String) (stop_words : List String)
    (isalnum : String → Bool) : Except String TextResult := do
  let pal := sns_set_palette_arg color_palette
  let docs := data.filterMap id
  let charCounts := docs.map (fun d => d.length)
  let tokens0 := docs.map word_tokenize
  let tokens1 := if lower_case then tokens0.map (fun t => t.map (fun w => w.toLower))
                 else tokens0
  let tokens2 := if remove_stop then
                   tokens1.map (fun t => t.filter (fun w => !(stop_words.contains w.toLower)))
                 else tokens1
  let tokens3 := if remove_punct then tokens2.map (fun t => t.filter isalnum)
                 else tokens2
  let tokenCounts := tokens3.map (fun t => t.length)
  let table0 := { computeCounts (trim_values (docs.map some) 0 0) with
                  vocabSize? := some (tokens3.flatten.dedup.length) }
  let tokensTable ← compute_univariate_summary_table
    (tokenCounts.map (fun n => some (n : ℚ))) "continuous" 0 0
  let charTable ← compute_univariate_summary_table
    (charCounts.map (fun n => some (n : ℚ))) "continuous" 0 0
  let fig : Figure := if compute_ngrams then ⟨fig_width, fig_height * 3⟩
                      else ⟨fig_width, fig_height⟩
  pure { paletteSet := some pal,
         tokens := tokens3,
         table := [table0, tokensTable, charTable],
         ret := PyObject.fig fig }

/-- `itertools.combinations(coll, 2)`: all in-order pairs of a list. -/
def combinations2 {α : Type} : List α → List (α × α)
  | [] => []
  | x :: xs => xs.map (fun y => (x, y)) ++ combinations2 xs

/-- What a `list_univariate_eda` call produced: the flattened singleton
entries, the within-list pairs, the per-observation entry counts, the
figure drawn to, and the Python return value (the function body ends in
`plt.show()` with no return statement, so the call returns `None`). -/
structure ListEdaResult (α : Type) where
  entries : List α
  pairs : List (α × α)
  numEntries : List ℕ
  fig : Figure
  ret : PyObject

/-- `list_univariate_eda`: drops missing rows, flattens the list entries
(`[i for e in data[column] for i in e]`) and the within-list pairs
(`[comb for coll in data[column] for comb in combinations(coll, 2)]`),
computes per-observation entry counts, draws the frequency charts through
the external plotters, and returns `None`.  `top_entries` only limits the
bar charts drawn by the external plotters. -/
def list_univariate_eda {α : Type} (data : List (Option (List α)))
    (fig_height fig_width : ℚ) (top_entries : ℕ) : ListEdaResult α :=
  let rows := data.filterMap id
  let entries := rows.flatten
  let pairs := (rows.map combinations2).flatten
  let numEntries := rows.map (fun x => x.length)
  { entries := entries,
    pairs := pairs,
    numEntries := numEntries,
    fig := ⟨fig_width, fig_height * 3⟩,
    ret := PyObject.none }

/-! ### Frame-effect model

The claims about mutation are settled against an alias-aware embedding of
each function body: a dataframe is a list of rows (records of named
optional cells), a local Python variable is a reference that either still
aliases the object the caller passed in or points to a fresh object.
`data.copy()` and rebinding `data = f(data)` (where `f` returns a fresh
frame) sever the alias; in-place column assignment `data[c] = ...` and
`dropna(..., inplace=True)` mutate the referenced object, and mutate the
callers frame exactly when the reference still aliases it.  Cell-level
computations (month names, token lists, deltas, categorical conversion)
are black-box parameters: the frame effect does not depend on them. -/

/-- A dataframe row: named optional cells. -/
abbrev DRow (β : Type) := List (String × Option β)

/-- A dataframe as the mutation model sees it: a list of rows. -/
abbrev DFrame (β : Type) := List (DRow β)

/-- Read one cell. -/
def getField {β : Type} (r : DRow β) (name : String) : Option β :=
  match r.find? (fun p => p.1 = name) with
  | some p => p.2
  | Option.none => Option.none

/-- Write one cell (adding the column if the row lacks it). -/
def setField {β : Type} (r : DRow β) (name : String) (v : Option β) : DRow β :=
  if r.any (fun p => p.1 = name) then
    r.map (fun p => if p.1 = name then (p.1, v) else p)
  else r ++ [(name, v)]

/-- Read a column. -/
def columnVals {β : Type} (df : DFrame β) (name : String) : List (Option β) :=
  df.map (fun r => getField r name)

/-- `df[name] = vals`: in-place column assignment, modelled as a value
update of the frame. -/
def setColumnVals {β : Type} (df : DFrame β) (name : String)
    (vals : List (Option β)) : DFrame β :=
  (df.zip vals).map (fun rv => setField rv.1 name rv.2)

/-- `df.dropna(subset=[name])`: keep the rows whose cell is present. -/
def dropnaDF {β : Type} (df : DFrame β) (name : String) : DFrame β :=
  df.filter (fun r => (getField r name).isSome)

/-- A local Python variable holding a dataframe: `aliased` records whether
it still points at the object the caller passed in. -/
structure PyVar (β : Type) where
  aliased : Bool
  df : DFrame β

/-- `data.copy()`: same value, fresh object. -/
def PyVar.copy {β : Type} (v : PyVar β) : PyVar β := ⟨false, v.df⟩

/-- `data = e` where `e` evaluates to a fresh frame: rebinding severs the
alias to the callers object. -/
def PyVar.rebind {β : Type} (_v : PyVar β) (d : DFrame β) : PyVar β := ⟨false, d⟩

/-- Apply an in-place mutation `f` to the object `v` references; the
callers frame changes exactly when `v` still aliases it. -/
def mutateVar {β : Type} (f : DFrame β → DFrame β) (v : PyVar β)
    (caller : DFrame β) : PyVar β × DFrame β :=
  let d := f v.df
  (⟨v.aliased, d⟩, if v.aliased then d else caller)

/-- Effect of `compute_univariate_summary_table` on the callers frame: the
body rebinds `data` to the fresh trimmed frame (`data = trim_values(...)`,
with `trim_values` spec-modelled as returning a fresh frame) and otherwise
only reads `data` while building new local tables. -/
def compute_univariate_summary_table_effect {β : Type}
    (trimF : DFrame β → DFrame β) (caller : DFrame β) : DFrame β :=
  let st : PyVar β × DFrame β := (⟨true, caller⟩, caller)
  let st := (st.1.rebind (trimF st.1.df), st.2)
  st.2

/-- Effect of `discrete_univariate_summary` on the callers frame:
`data = data.copy()` first, then the summary-table call on the copy; the
countplot only reads. -/
def discrete_univariate_summary_effect {β : Type}
    (trimF : DFrame β → DFrame β) (caller : DFrame β) : DFrame β :=
  let st : PyVar β × DFrame β := (⟨true, caller⟩, caller)
  let st := (st.1.copy, st.2)
  let st := mutateVar (compute_univariate_summary_table_effect trimF) st.1 st.2
  st.2

/-- Effect of `continuous_univariate_summary` on the callers frame:
`data = data.copy()` first, then the summary-table call; histogram and
boxplot only read. -/
def continuous_univariate_summary_effect {β : Type}
    (trimF : DFrame β → DFrame β) (caller : DFrame β) : DFrame β :=
  let st : PyVar β × DFrame β := (⟨true, caller⟩, caller)
  let st := (st.1.copy, st.2)
  let st := mutateVar (compute_univariate_summary_table_effect trimF) st.1 st.2
  st.2

/-- Effect of `datetime_univariate_summary` on the callers frame, statement
by statement: copy, rebind to the trimmed frame, five derived calendar
columns, the delta column, the two summary-table calls, and the four
categorical re-assignments.  All mutations hit the copy. -/
def datetime_univariate_summary_effect {β : Type}
    (trimF : DFrame β → DFrame β)
    (monthF dayF yearF hourF dowF : Option β → Option β)
    (deltasF : List (Option β) → List (Option β))
    (catMonthF catDayF catDowF catHourF : List (Option β) → List (Option β))
    (column : String) (caller : DFrame β) : DFrame β :=
  let st : PyVar β × DFrame β := (⟨true, caller⟩, caller)
  let st := (st.1.copy, st.2)
  let st := (st.1.rebind (trimF st.1.df), st.2)
  let st := mutateVar (fun d => setColumnVals d "Month" ((columnVals d column).map monthF)) st.1 st.2
  let st := mutateVar (fun d => setColumnVals d "Day of Month" ((columnVals d column).map dayF)) st.1 st.2
  let st := mutateVar (fun d => setColumnVals d "Year" ((columnVals d column).map yearF)) st.1 st.2
  let st := mutateVar (fun d => setColumnVals d "Hour" ((columnVals d column).map hourF)) st.1 st.2
  let st := mutateVar (fun d => setColumnVals d "Day of Week" ((columnVals d column).map dowF)) st.1 st.2
  let st := mutateVar (fun d => setColumnVals d "deltas" (deltasF (columnVals d column))) st.1 st.2
  let st := mutateVar (compute_univariate_summary_table_effect trimF) st.1 st.2
  let st := mutateVar (compute_univariate_summary_table_effect trimF) st.1 st.2
  let st := mutateVar (fun d => setColumnVals d "Month" (catMonthF (columnVals d "Month"))) st.1 st.2
  let st := mutateVar (fun d => setColumnVals d "Day of Month" (catDayF (columnVals d "Day of Month"))) st.1 st.2
  let st := mutateVar (fun d => setColumnVals d "Day of Week" (catDowF (columnVals d "Day of Week"))) st.1 st.2
  let st := mutateVar (fun d => setColumnVals d "Hour" (catHourF (columnVals d "Hour"))) st.1 st.2
  st.2

/-- Effect of `text_univariate_summary` on the callers frame: copy, rebind
to the fresh `dropna` result, character counts, the token column with its
three conditional re-assignments, and the token counts.  All mutations hit
the copy. -/
def text_univariate_summary_effect {β : Type}
    (charF tokF lenF : Option β → Option β)
    (lowerF stopF punctF : List (Option β) → List (Option β))
    (lower_case remove_stop remove_punct : Bool)
    (column : String) (caller : DFrame β) : DFrame β :=
  let st : PyVar β × DFrame β := (⟨true, caller⟩, caller)
  let st := (st.1.copy, st.2)
  let st := (st.1.rebind (dropnaDF st.1.df column), st.2)
  let st := mutateVar (fun d => setColumnVals d "# Characters / Document" ((columnVals d column).map charF)) st.1 st.2
  let st := mutateVar (fun d => setColumnVals d "tokens" ((columnVals d column).map tokF)) st.1 st.2
  let st := if lower_case then
      mutateVar (fun d => setColumnVals d "tokens" (lowerF (columnVals d "tokens"))) st.1 st.2
    else st
  let st := if remove_stop then
      mutateVar (fun d => setColumnVals d "tokens" (stopF (columnVals d "tokens"))) st.1 st.2
    else st
  let st := if remove_punct then
      mutateVar (fun d => setColumnVals d "tokens" (punctF (columnVals d "tokens"))) st.1 st.2
    else st
  let st := mutateVar (fun d => setColumnVals d "# Tokens / Document" ((columnVals d "tokens").map lenF)) st.1 st.2
  st.2

/-- Effect of `list_univariate_eda` on the callers frame: copy, then the
in-place `dropna(subset=[column], inplace=True)` and the `num_entries`
column assignment, both on the copy. -/
def list_univariate_eda_effect {β : Type} (lenF : Option β → Option β)
    (column : String) (caller : DFrame β) : DFrame β :=
  let st : PyVar β × DFrame β := (⟨true, caller⟩, caller)
  let st := (st.1.copy, st.2)
  let st := mutateVar (fun d => dropnaDF d column) st.1 st.2
  let st := mutateVar (fun d => setColumnVals d "num_entries" ((columnVals d column).map lenF)) st.1 st.2
  st.2

/-! ### Helper lemmas -/

/-- The trimmed observed values, sorted, as the builder computes them. -/
def sortedObs (col : Col) (lower_trim upper_trim : ℕ) : List ℚ :=
  List.insertionSort (· ≤ ·) (observed (trim_values col lower_trim upper_trim))

theorem compute_datetime_eq (col : Col) (lo hi : ℕ) :
    compute_univariate_summary_table col "datetime" lo hi =
      Except.ok { computeCounts (trim_values col lo hi) with
        columns := (computeCounts (trim_values col lo hi)).columns ++
          ["min", "25%", "median", "75%", "max", "iqr"],
        min? := some ((sortedObs col lo hi).getD 0 0),
        q25? := some (quantile (sortedObs col lo hi) (1/4)),
        median? := some (quantile (sortedObs col lo hi) (1/2)),
        q75? := some (quantile (sortedObs col lo hi) (3/4)),
        max? := some ((sortedObs col lo hi).getD ((sortedObs col lo hi).length - 1) 0),
        iqr? := some (quantile (sortedObs col lo hi) (3/4) -
          quantile (sortedObs col lo hi) (1/4)) } := by
  simp [compute_univariate_summary_table, sortedObs]

theorem compute_continuous_eq (col : Col) (lo hi : ℕ) :
    compute_univariate_summary_table col "continuous" lo hi =
      Except.ok { computeCounts (trim_values col lo hi) with
        columns := (computeCounts (trim_values col lo hi)).columns ++
          ["min", "25%", "median", "mean", "75%", "max", "std", "iqr"],
        min? := some ((sortedObs col lo hi).getD 0 0),
        q25? := some (quantile (sortedObs col lo hi) (1/4)),
        median? := some (quantile (sortedObs col lo hi) (1/2)),
        mean? := some (listMean (sortedObs col lo hi)),
        q75? := some (quantile (sortedObs col lo hi) (3/4)),
        max? := some ((sortedObs col lo hi).getD ((sortedObs col lo hi).length - 1) 0),
        stdSq? := some (sampleVarSq (sortedObs col lo hi)),
        iqr? := some (quantile (sortedObs col lo hi) (3/4) -
          quantile (sortedObs col lo hi) (1/4)) } := by
  simp [compute_univariate_summary_table, sortedObs]

theorem compute_discrete_eq (col : Col) (lo hi : ℕ) :
    compute_univariate_summary_table col "discrete" lo hi =
      Except.ok (computeCounts (trim_values col lo hi)) := by
  simp [compute_univariate_summary_table]

theorem compute_isOk (col : Col) (data_type : String) (lo hi : ℕ) :
    ∃ t, compute_univariate_summary_table col data_type lo hi = Except.ok t := by
  unfold compute_univariate_summary_table
  by_cases h1 : data_type = "datetime"
  · exact ⟨_, by rw [if_pos h1]⟩
  · by_cases h2 : data_type = "continuous" ∨ data_type = "datetime"
    · exact ⟨_, by rw [if_neg h1, if_pos h2]⟩
    · exact ⟨_, by rw [if_neg h1, if_neg h2]⟩

theorem observed_length_add_countMissing {α : Type} (col : List (Option α)) :
    (observed col).length + countMissing col = col.length := by
  induction col with
  | nil => rfl
  | cons c t ih =>
    cases c <;>
      simp [observed, countMissing, List.filterMap_cons, List.filter_cons] at ih ⊢ <;>
      omega

theorem countMissing_replicate {α : Type} (m : ℕ) :
    countMissing (List.replicate m (Option.none : Option α)) = m := by
  induction m with
  | zero => rfl
  | succ k ih => simpa [countMissing, List.replicate_succ, List.filter_cons] using ih

theorem countMissing_append {α : Type} (l₁ l₂ : List (Option α)) :
    countMissing (l₁ ++ l₂) = countMissing l₁ + countMissing l₂ := by
  simp [countMissing, List.filter_append]

theorem countMissing_map_some {α : Type} (l : List α) :
    countMissing (l.map some) = 0 := by
  induction l with
  | nil => rfl
  | cons a t ih => simpa [countMissing, List.filter_cons] using ih

theorem trim_values_length_zero {α : Type} [LinearOrder α] (col : List (Option α)) :
    (trim_values col 0 0).length = col.length := by
  simp only [trim_values, List.drop_zero, Nat.sub_zero, List.length_append,
    List.length_map, List.length_take, List.length_insertionSort,
    List.length_replicate, Nat.min_self]
  exact observed_length_add_countMissing col

theorem count_fields_balance {α : Type} [DecidableEq α] (data : List (Option α)) :
    (computeCounts data).count_observed + ((computeCounts data).count_missing : ℤ) =
      (data.length : ℤ) := by
  simp [computeCounts]

/-- The interpolation kernel of `quantile` at rank position `h`. -/
def interpAt (s : List ℚ) (h : ℚ) : ℚ :=
  let i := (Int.floor h).toNat
  let lo := s.getD i 0
  let hi := s.getD (i + 1) lo
  lo + (h - (Int.floor h : ℚ)) * (hi - lo)

theorem quantile_eq_interpAt (s : List ℚ) (p : ℚ) :
    quantile s p = interpAt s (p * ((s.length : ℚ) - 1)) := rfl

theorem getD_le_getD_of_sorted {s : List ℚ} (hs : s.Sorted (· ≤ ·)) {i j : ℕ}
    (hij : i ≤ j) (hj : j < s.length) (d e : ℚ) : s.getD i d ≤ s.getD j e := by
  have hi2 : i < s.length := lt_of_le_of_lt hij hj
  rw [List.getD_eq_get s d hi2, List.getD_eq_get s e hj]
  rcases Nat.lt_or_ge i j with h | h
  · exact hs.rel_get_of_lt (Fin.mk_lt_mk.mpr h)
  · have hij2 : i = j := le_antisymm hij h
    subst hij2
    exact le_of_eq rfl

theorem getD_lo_le_hi {s : List ℚ} (hs : s.Sorted (· ≤ ·)) (i : ℕ) :
    s.getD i 0 ≤ s.getD (i + 1) (s.getD i 0) := by
  by_cases hcase : i + 1 < s.length
  · exact getD_le_getD_of_sorted hs (Nat.le_succ i) hcase 0 (s.getD i 0)
  · rw [List.getD_eq_default s _ (by omega : s.length ≤ i + 1)]

theorem interpAt_mono {s : List ℚ} (hs : s.Sorted (· ≤ ·)) {h₁ h₂ : ℚ}
    (h10 : 0 ≤ h₁) (h12 : h₁ ≤ h₂) (h2top : h₂ ≤ (s.length : ℚ) - 1) :
    interpAt s h₁ ≤ interpAt s h₂ := by
  have hn1 : (0 : ℚ) ≤ (s.length : ℚ) - 1 := le_trans (le_trans h10 h12) h2top
  have hn : 1 ≤ s.length := by
    have h1q : (1 : ℚ) ≤ (s.length : ℚ) := by linarith
    exact_mod_cast h1q
  have hf10 : 0 ≤ ⌊h₁⌋ := Int.floor_nonneg.mpr h10
  have hf12 : ⌊h₁⌋ ≤ ⌊h₂⌋ := Int.floor_le_floor h12
  have hf20 : 0 ≤ ⌊h₂⌋ := le_trans hf10 hf12
  have hf2top : ⌊h₂⌋ ≤ (s.length : ℤ) - 1 := by
    have hstep : ⌊h₂⌋ ≤ ⌊((s.length : ℚ) - 1)⌋ := Int.floor_le_floor h2top
    have hcast : ((s.length : ℚ) - 1) = (((s.length : ℤ) - 1 : ℤ) : ℚ) := by
      push_cast
      ring
    rwa [hcast, Int.floor_intCast] at hstep
  have hi12 : (⌊h₁⌋).toNat ≤ (⌊h₂⌋).toNat := Int.toNat_le_toNat hf12
  have hi2n : (⌊h₂⌋).toNat < s.length := by omega
  have hfr1a : (⌊h₁⌋ : ℚ) ≤ h₁ := Int.floor_le h₁
  have hfr1b : h₁ - (⌊h₁⌋ : ℚ) < 1 := by
    have := Int.lt_floor_add_one h₁
    linarith
  have hfr2a : (⌊h₂⌋ : ℚ) ≤ h₂ := Int.floor_le h₂
  have hl1 : s.getD (⌊h₁⌋).toNat 0 ≤
      s.getD ((⌊h₁⌋).toNat + 1) (s.getD (⌊h₁⌋).toNat 0) := getD_lo_le_hi hs _
  have hl2 : s.getD (⌊h₂⌋).toNat 0 ≤
      s.getD ((⌊h₂⌋).toNat + 1) (s.getD (⌊h₂⌋).toNat 0) := getD_lo_le_hi hs _
  simp only [interpAt]
  rcases Nat.lt_or_ge (⌊h₁⌋).toNat (⌊h₂⌋).toNat with hlt | hge
  · have hstep2 : s.getD ((⌊h₁⌋).toNat + 1) (s.getD (⌊h₁⌋).toNat 0) ≤
        s.getD (⌊h₂⌋).toNat 0 :=
      getD_le_getD_of_sorted hs (by omega) hi2n _ _
    have p1 : (0 : ℚ) ≤ (1 - (h₁ - (⌊h₁⌋ : ℚ))) *
        (s.getD ((⌊h₁⌋).toNat + 1) (s.getD (⌊h₁⌋).toNat 0) - s.getD (⌊h₁⌋).toNat 0) :=
      mul_nonneg (by linarith) (by linarith)
    have p2 : (0 : ℚ) ≤ (h₂ - (⌊h₂⌋ : ℚ)) *
        (s.getD ((⌊h₂⌋).toNat + 1) (s.getD (⌊h₂⌋).toNat 0) - s.getD (⌊h₂⌋).toNat 0) :=
      mul_nonneg (by linarith) (by linarith)
    nlinarith [p1, p2, hstep2]
  · have heqZ : ⌊h₁⌋ = ⌊h₂⌋ := by omega
    rw [heqZ]
    have p3 : (0 : ℚ) ≤ (h₂ - h₁) *
        (s.getD ((⌊h₂⌋).toNat + 1) (s.getD (⌊h₂⌋).toNat 0) - s.getD (⌊h₂⌋).toNat 0) :=
      mul_nonneg (by linarith) (by linarith)
    nlinarith [p3]

theorem quantile_mono {s : List ℚ} (hs : s.Sorted (· ≤ ·)) (hne : s ≠ [])
    {p q : ℚ} (hp0 : 0 ≤ p) (hpq : p ≤ q) (hq1 : q ≤ 1) :
    quantile s p ≤ quantile s q := by
  have hn : 1 ≤ s.length := List.length_pos.mpr hne
  have hn1 : (0 : ℚ) ≤ (s.length : ℚ) - 1 := by
    have : (1 : ℚ) ≤ (s.length : ℚ) := by exact_mod_cast hn
    linarith
  rw [quantile_eq_interpAt, quantile_eq_interpAt]
  exact interpAt_mono hs (mul_nonneg hp0 hn1)
    (mul_le_mul_of_nonneg_right hpq hn1)
    (le_trans (mul_le_mul_of_nonneg_right hq1 hn1) (le_of_eq (one_mul _)))

theorem quantile_zero (s : List ℚ) : quantile s 0 = s.getD 0 0 := by
  simp [quantile]

theorem quantile_one {s : List ℚ} (hne : s ≠ []) :
    quantile s 1 = s.getD (s.length - 1) 0 := by
  have hn : 1 ≤ s.length := List.length_pos.mpr hne
  have hcast : ((s.length : ℚ) - 1) = (((s.length - 1 : ℕ) : ℤ) : ℚ) := by
    push_cast [hn]
    ring
  simp only [quantile, one_mul, hcast, Int.floor_intCast, Int.toNat_natCast]
  simp

theorem compute_preserves_counts (col : Col) (data_type : String) (lo hi : ℕ) :
    ∃ t, compute_univariate_summary_table col data_type lo hi = Except.ok t ∧
      t.count_observed = (computeCounts (trim_values col lo hi)).count_observed ∧
      t.count_unique = (computeCounts (trim_values col lo hi)).count_unique ∧
      t.count_missing = (computeCounts (trim_values col lo hi)).count_missing ∧
      t.percent_missing = (computeCounts (trim_values col lo hi)).percent_missing := by
  unfold compute_univariate_summary_table
  by_cases h1 : data_type = "datetime"
  · rw [if_pos h1]
    exact ⟨_, rfl, rfl, rfl, rfl, rfl⟩
  · by_cases h2 : data_type = "continuous" ∨ data_type = "datetime"
    · rw [if_neg h1, if_pos h2]
      exact ⟨_, rfl, rfl, rfl, rfl, rfl⟩
    · rw [if_neg h1, if_neg h2]
      exact ⟨_, rfl, rfl, rfl, rfl, rfl⟩

/-- C2 (amended): for every column, data type and trim setting, the count
fields of the summary table balance against the rows remaining after
trimming; with no trimming that is exactly the total row count of the
input. -/
theorem count_balance_after_trim (col : Col) (data_type : String) (lo hi : ℕ) :
    (∃ t, compute_univariate_summary_table col data_type lo hi = Except.ok t ∧
        t.count_observed + (t.count_missing : ℤ) =
          ((trim_values col lo hi).length : ℤ)) ∧
      (trim_values col 0 0).length = col.length := by
  constructor
  · obtain ⟨t, ht, hobs, _, hmiss, _⟩ := compute_preserves_counts col data_type lo hi
    refine ⟨t, ht, ?_⟩
    rw [hobs, hmiss]
    exact count_fields_balance (trim_values col lo hi)
  · exact trim_values_length_zero col

/-- C2 (counterexample): with `lower_trim = 1` on the two-row column
`[1, 2]`, the counts balance to `1`, not to the input row count `2`. -/
theorem count_balance_counterexample :
    ¬ ((compute_univariate_summary_table [some 1, some 2] "discrete" 1 0).map
        (fun t => t.count_observed + (t.count_missing : ℤ)) =
      Except.ok (([some 1, some 2] : Col).length : ℤ)) := by
  rw [compute_discrete_eq]
  have htrim : trim_values ([some 1, some 2] : Col) 1 0 = [some 2] := by decide
  rw [htrim]
  simp [computeCounts, countMissing, nunique, observed, Except.map]

/-- C3: the discrete summary of `[1, 2, 2, 3, 3, 3, None]` has
`count_observed = 6`, `count_unique = 3`, `count_missing = 1` and
`percent_missing = 100 / 7` (about 14.3). -/
theorem summary_example_discrete :
    (compute_univariate_summary_table
        [some 1, some 2, some 2, some 3, some 3, some 3, Option.none]
        "discrete" 0 0).map
      (fun t => (t.count_observed, t.count_unique, t.count_missing, t.percent_missing)) =
    Except.ok ((6 : ℤ), (3 : ℕ), (1 : ℕ), (100 / 7 : ℚ)) := by
  rw [compute_discrete_eq]
  have htrim : trim_values
      ([some 1, some 2, some 2, some 3, some 3, some 3, Option.none] : Col) 0 0 =
      [some 1, some 2, some 2, some 3, some 3, some 3, Option.none] := by decide
  rw [htrim]
  simp [computeCounts, countMissing, nunique, observed, Except.map]

/-- C4: for every column and trim setting, the datetime summary table
carries exactly the count fields plus min, 25%, median, 75%, max and iqr,
and in particular no mean and no std column. -/
theorem datetime_summary_fields (col : Col) (lo hi : ℕ) :
    ∃ t, compute_univariate_summary_table col "datetime" lo hi = Except.ok t ∧
      t.columns = ["count_observed", "count_unique", "count_missing", "percent_missing",
        "min", "25%", "median", "75%", "max", "iqr"] ∧
      "mean" ∉ t.columns ∧ "std" ∉ t.columns := by
  refine ⟨_, compute_datetime_eq col lo hi, ?_, ?_, ?_⟩ <;> simp [computeCounts]

theorem length_observed_le {α : Type} (col : List (Option α)) :
    (observed col).length ≤ col.length :=
  List.length_filterMap_le id col

/-- C5: when the trim counts meet or exceed the row count, the builder
still returns a table (no guard, no raised error); the result is the
degenerate table with `count_observed = 0` whose missing count is that of
the whole input column. -/
theorem trim_all_rows_no_error (col : Col) (data_type : String) (lo hi : ℕ)
    (h : col.length ≤ lo + hi) :
    ∃ t, compute_univariate_summary_table col data_type lo hi = Except.ok t ∧
      t.count_observed = 0 ∧ t.count_missing = countMissing col := by
  have htrim : trim_values col lo hi = List.replicate (countMissing col) Option.none := by
    have hlen : (observed col).length ≤ col.length := length_observed_le col
    have hz : (List.insertionSort (· ≤ ·) (observed col)).length - lo - hi = 0 := by
      rw [List.length_insertionSort]
      omega
    simp only [trim_values]
    rw [hz]
    simp
  obtain ⟨t, ht, hobs, _, hmiss, _⟩ := compute_preserves_counts col data_type lo hi
  refine ⟨t, ht, ?_, ?_⟩
  · rw [hobs, htrim]
    simp [computeCounts, countMissing_replicate]
  · rw [hmiss, htrim]
    simp [computeCounts, countMissing_replicate]

/-- C5 witness: trimming one value from each end of a two-row column
removes everything, and the builder returns the degenerate table. -/
theorem trim_all_rows_no_error_witness :
    ([some 1, some 2] : Col).length ≤ 1 + 1 ∧
    ∃ t, compute_univariate_summary_table [some 1, some 2] "continuous" 1 1 = Except.ok t ∧
      t.count_observed = 0 ∧ t.count_missing = countMissing ([some 1, some 2] : Col) :=
  ⟨by decide, trim_all_rows_no_error [some 1, some 2] "continuous" 1 1 (by decide)⟩

/-- C6: on any column whose trimmed observed values are non-empty, the
continuous summary table satisfies min ≤ 25% ≤ median ≤ 75% ≤ max, and its
iqr column is exactly the 75% column minus the 25% column. -/
theorem continuous_quantile_order (col : Col) (lo hi : ℕ)
    (hne : observed (trim_values col lo hi) ≠ []) :
    ∃ t mn q1 md q3 mx,
      compute_univariate_summary_table col "continuous" lo hi = Except.ok t ∧
      t.min? = some mn ∧ t.q25? = some q1 ∧ t.median? = some md ∧
      t.q75? = some q3 ∧ t.max? = some mx ∧ t.iqr? = some (q3 - q1) ∧
      mn ≤ q1 ∧ q1 ≤ md ∧ md ≤ q3 ∧ q3 ≤ mx := by
  have hs : (sortedObs col lo hi).Sorted (· ≤ ·) := List.sorted_insertionSort _ _
  have hsl : (sortedObs col lo hi).length = (observed (trim_values col lo hi)).length :=
    List.length_insertionSort _ _
  have hsne : sortedObs col lo hi ≠ [] := by
    intro hnil
    apply hne
    apply List.length_eq_zero.mp
    rw [← hsl, hnil]
    rfl
  refine ⟨_, (sortedObs col lo hi).getD 0 0, quantile (sortedObs col lo hi) (1/4),
    quantile (sortedObs col lo hi) (1/2), quantile (sortedObs col lo hi) (3/4),
    (sortedObs col lo hi).getD ((sortedObs col lo hi).length - 1) 0,
    compute_continuous_eq col lo hi, rfl, rfl, rfl, rfl, rfl, rfl, ?_, ?_, ?_, ?_⟩
  · rw [← quantile_zero (sortedObs col lo hi)]
    exact quantile_mono hs hsne (by norm_num) (by norm_num) (by norm_num)
  · exact quantile_mono hs hsne (by norm_num) (by norm_num) (by norm_num)
  · exact quantile_mono hs hsne (by norm_num) (by norm_num) (by norm_num)
  · rw [← quantile_one hsne]
    exact quantile_mono hs hsne (by norm_num) (by norm_num) (by norm_num)

/-- C6 witness: the ordering facts instantiated on the concrete column
`[3, 1, 2]` with no trimming. -/
theorem continuous_quantile_order_witness :
    observed (trim_values ([some 3, some 1, some 2] : Col) 0 0) ≠ [] ∧
    ∃ t mn q1 md q3 mx,
      compute_univariate_summary_table [some 3, some 1, some 2] "continuous" 0 0 =
        Except.ok t ∧
      t.min? = some mn ∧ t.q25? = some q1 ∧ t.median? = some md ∧
      t.q75? = some q3 ∧ t.max? = some mx ∧ t.iqr? = some (q3 - q1) ∧
      mn ≤ q1 ∧ q1 ≤ md ∧ md ≤ q3 ∧ q3 ≤ mx :=
  ⟨by decide, continuous_quantile_order [some 3, some 1, some 2] 0 0 (by decide)⟩

theorem except_map_do₁ {α γ δ : Type} (c1 : Except String α)
    (h1 : ∃ a, c1 = Except.ok a) (k : α → γ) (p : γ → δ) (v : δ)
    (hk : ∀ a, p (k a) = v) :
    Except.map p (c1 >>= fun a => pure (k a)) = Except.ok v := by
  obtain ⟨a, ha⟩ := h1
  subst ha
  show Except.ok (p (k a)) = Except.ok v
  rw [hk]

theorem except_map_do₂ {α β γ δ : Type} (c1 : Except String α) (c2 : Except String β)
    (h1 : ∃ a, c1 = Except.ok a) (h2 : ∃ b, c2 = Except.ok b)
    (k : α → β → γ) (p : γ → δ) (v : δ)
    (hk : ∀ a b, p (k a b) = v) :
    Except.map p (c1 >>= fun a => c2 >>= fun b => pure (k a b)) = Except.ok v := by
  obtain ⟨a, ha⟩ := h1
  obtain ⟨b, hb⟩ := h2
  subst ha
  subst hb
  show Except.ok (p (k a b)) = Except.ok v
  rw [hk]

/-- C1 (amended): the discrete, continuous and datetime orchestrators
return a (table, figure) pair; `text_univariate_summary` returns only the
figure handle; `list_univariate_eda` returns `None`. -/
theorem orchestrator_return_shapes :
    (∀ (data : Col) (fh fw : ℚ) (cp : Option String),
      (discrete_univariate_summary data fh fw cp).map (fun r => isTableFigPair r.ret) =
        Except.ok true) ∧
    (∀ (data : Col) (fh fw : ℚ) (cp : Option String) (lo hi : ℕ),
      (continuous_univariate_summary data fh fw cp lo hi).map
        (fun r => isTableFigPair r.ret) = Except.ok true) ∧
    (∀ (data : Col) (fh fw : ℚ) (cp : Option String) (du : String) (lo hi : ℕ),
      (datetime_univariate_summary data fh fw cp du lo hi).map
        (fun r => isTableFigPair r.ret) = Except.ok true) ∧
    (∀ (data : List (Option String)) (fh fw : ℚ) (cp : Option String)
        (cn rp rs lc : Bool) (wt : String → List String) (sw : List String)
        (ia : String → Bool),
      (text_univariate_summary data fh fw cp cn rp rs lc wt sw ia).map
        (fun r => isFigOnly r.ret) = Except.ok true) ∧
    (∀ (α : Type) (data : List (Option (List α))) (fh fw : ℚ) (te : ℕ),
      (list_univariate_eda data fh fw te).ret = PyObject.none) := by
  refine ⟨?_, ?_, ?_, ?_, ?_⟩
  · intro data fh fw cp
    simp only [discrete_univariate_summary]
    exact except_map_do₁ _ (compute_isOk _ _ _ _) _ _ _ (fun a => rfl)
  · intro data fh fw cp lo hi
    simp only [continuous_univariate_summary]
    exact except_map_do₁ _ (compute_isOk _ _ _ _) _ _ _ (fun a => rfl)
  · intro data fh fw cp du lo hi
    simp only [datetime_univariate_summary, compute_time_deltas]
    exact except_map_do₂ _ _ (compute_isOk _ _ _ _) (compute_isOk _ _ _ _) _ _ _
      (fun a b => rfl)
  · intro data fh fw cp cn rp rs lc wt sw ia
    simp only [text_univariate_summary]
    exact except_map_do₂ _ _ (compute_isOk _ _ _ _) (compute_isOk _ _ _ _) _ _ _
      (fun a b => rfl)
  · intro α data fh fw te
    rfl

/-- C1 (counterexample): `list_univariate_eda` does not return a (table,
figure) pair at the concrete input `[[1, 2], [2, 3]]` — it returns `None`. -/
theorem orchestrator_pair_counterexample :
    isTableFigPair
      (list_univariate_eda ([some [1, 2], some [2, 3]] : List (Option (List ℕ))) 4 8 10).ret
      = false := rfl

/-- C7: for the list column `[[1, 2], [2, 3]]`, the flattened singleton
multiset has frequencies 1 ↦ 1, 2 ↦ 2, 3 ↦ 1 (and no other entries), and
the within-list pair multiset has frequencies (1,2) ↦ 1, (2,3) ↦ 1 (and no
other pairs). -/
theorem list_eda_example :
    (list_univariate_eda ([some [1, 2], some [2, 3]] : List (Option (List ℕ))) 4 8 10).entries
        = [1, 2, 2, 3] ∧
    (list_univariate_eda ([some [1, 2], some [2, 3]] : List (Option (List ℕ))) 4 8 10).entries.dedup
        = [1, 2, 3] ∧
    ([1, 2, 2, 3] : List ℕ).count 1 = 1 ∧ ([1, 2, 2, 3] : List ℕ).count 2 = 2 ∧
    ([1, 2, 2, 3] : List ℕ).count 3 = 1 ∧
    (list_univariate_eda ([some [1, 2], some [2, 3]] : List (Option (List ℕ))) 4 8 10).pairs
        = [(1, 2), (2, 3)] ∧
    ([(1, 2), (2, 3)] : List (ℕ × ℕ)).count (1, 2) = 1 ∧
    ([(1, 2), (2, 3)] : List (ℕ × ℕ)).count (2, 3) = 1 ∧
    (list_univariate_eda ([some [1, 2], some [2, 3]] : List (Option (List ℕ))) 4 8 10).pairs.dedup
        = [(1, 2), (2, 3)] := by
  decide

/-- C8: none of the module functions mutates the frame the caller passed
in: every in-place operation happens after the defensive copy (or, in the
summary-table builder, the only rebinding is to the fresh trimmed frame). -/
theorem no_caller_mutation : ∀ (β : Type) (trimF : DFrame β → DFrame β)
    (monthF dayF yearF hourF dowF charF tokF lenF lenG : Option β → Option β)
    (deltasF catMonthF catDayF catDowF catHourF lowerF stopF punctF :
      List (Option β) → List (Option β))
    (lc rs rp : Bool) (column : String) (caller : DFrame β),
    compute_univariate_summary_table_effect trimF caller = caller ∧
    discrete_univariate_summary_effect trimF caller = caller ∧
    continuous_univariate_summary_effect trimF caller = caller ∧
    datetime_univariate_summary_effect trimF monthF dayF yearF hourF dowF deltasF
      catMonthF catDayF catDowF catHourF column caller = caller ∧
    text_univariate_summary_effect charF tokF lenF lowerF stopF punctF lc rs rp
      column caller = caller ∧
    list_univariate_eda_effect lenG column caller = caller := by
  intro β trimF monthF dayF yearF hourF dowF charF tokF lenF lenG deltasF catMonthF
    catDayF catDowF catHourF lowerF stopF punctF lc rs rp column caller
  refine ⟨rfl, rfl, rfl, rfl, ?_, rfl⟩
  cases lc <;> cases rs <;> cases rp <;> rfl

/-- C9: with the default `color_palette = None` every palette-setting
orchestrator takes the `color_palette != ""` branch and passes `None`
straight to `sns.set_palette`; the `tab10` fallback branch runs exactly
when the caller passes the empty string. -/
theorem color_palette_branch :
    (∀ (data : Col) (fh fw : ℚ),
      (discrete_univariate_summary data fh fw Option.none).map (fun r => r.paletteSet) =
        Except.ok (some Option.none)) ∧
    (∀ (data : Col) (fh fw : ℚ) (lo hi : ℕ),
      (continuous_univariate_summary data fh fw Option.none lo hi).map
        (fun r => r.paletteSet) = Except.ok (some Option.none)) ∧
    (∀ (data : Col) (fh fw : ℚ) (du : String) (lo hi : ℕ),
      (datetime_univariate_summary data fh fw Option.none du lo hi).map
        (fun r => r.paletteSet) = Except.ok (some Option.none)) ∧
    (∀ (data : List (Option String)) (fh fw : ℚ) (cn rp rs lc : Bool)
        (wt : String → List String) (sw : List String) (ia : String → Bool),
      (text_univariate_summary data fh fw Option.none cn rp rs lc wt sw ia).map
        (fun r => r.paletteSet) = Except.ok (some Option.none)) ∧
    (∀ cp : Option String, cp ≠ some "" → sns_set_palette_arg cp = cp) ∧
    sns_set_palette_arg (some "") = some "tab10" := by
  refine ⟨?_, ?_, ?_, ?_, ?_, ?_⟩
  · intro data fh fw
    simp only [discrete_univariate_summary]
    exact except_map_do₁ _ (compute_isOk _ _ _ _) _ _ _ (fun a => rfl)
  · intro data fh fw lo hi
    simp only [continuous_univariate_summary]
    exact except_map_do₁ _ (compute_isOk _ _ _ _) _ _ _ (fun a => rfl)
  · intro data fh fw du lo hi
    simp only [datetime_univariate_summary, compute_time_deltas]
    exact except_map_do₂ _ _ (compute_isOk _ _ _ _) (compute_isOk _ _ _ _) _ _ _
      (fun a b => rfl)
  · intro data fh fw cn rp rs lc wt sw ia
    simp only [text_univariate_summary]
    exact except_map_do₂ _ _ (compute_isOk _ _ _ _) (compute_isOk _ _ _ _) _ _ _
      (fun a b => rfl)
  · intro cp hcp
    simp only [sns_set_palette_arg, if_pos hcp]
  · rfl

/-- C9 witness: a non-empty palette name is passed through unchanged. -/
theorem color_palette_branch_witness :
    (some "deep" ≠ (some "" : Option String)) ∧
    sns_set_palette_arg (some "deep") = some "deep" :=
  ⟨by decide, color_palette_branch.2.2.2.2.1 (some "deep") (by decide)⟩

theorem all_filter_self {α : Type} (p : α → Bool) (l : List α) :
    (l.filter p).all p = true := by
  rw [List.all_eq_true]
  intro a ha
  exact (List.mem_filter.mp ha).2

theorem all_filter_of_all {α : Type} {p q : α → Bool} {l : List α}
    (h : l.all p = true) : (l.filter q).all p = true := by
  rw [List.all_eq_true] at h ⊢
  intro a ha
  exact h a (List.mem_filter.mp ha).1

/-- C10: with `remove_stop = True` and `lower_case = False`, every token
surviving the text pipeline has a lower-cased form outside the stop-word
list: stop-word removal is case-insensitive because the filter compares
`w.lower()` against the set. -/
theorem stopword_removal_case_insensitive :
    ∀ (data : List (Option String)) (fh fw : ℚ) (cp : Option String)
      (cn rp : Bool) (wt : String → List String) (sw : List String)
      (ia : String → Bool),
      (text_univariate_summary data fh fw cp cn rp true false wt sw ia).map
        (fun r => r.tokens.all (fun t => t.all (fun w => !(sw.contains w.toLower)))) =
      Except.ok true := by
  intro data fh fw cp cn rp wt sw ia
  simp only [text_univariate_summary]
  refine except_map_do₂ _ _ (compute_isOk _ _ _ _) (compute_isOk _ _ _ _) _ _ _ ?_
  intro a b
  simp only [Bool.false_eq_true, if_false, if_true]
  cases rp
  · simp only [Bool.false_eq_true, if_false]
    rw [List.all_eq_true]
    intro t ht
    obtain ⟨x, _hx, rfl⟩ := List.mem_map.mp ht
    exact all_filter_self _ _
  · simp only [if_true]
    rw [List.all_eq_true]
    intro t ht
    obtain ⟨u, hu, rfl⟩ := List.mem_map.mp ht
    obtain ⟨x, _hx, rfl⟩ := List.mem_map.mp hu
    exact all_filter_of_all (all_filter_self _ _)
